import Mathlib

/-!
Verification of the notification (toast) manager and the asynchronous
analysis controller of the news-contrast-ai frontend.

The definitions below are a shallow embedding of the JavaScript source:

* `addToast` / `removeToast` embed the `useToasts` hook of the Toast module
  (the unnamed source file holding the `Toast` component): toast state is a
  list, `removeToast` filters by id.
* `TState` / `Step` embed the per-toast timer machine of the `Toast`
  component: the duration `setTimeout`, the nested 300 ms exit-animation
  `setTimeout` (reached from the duration callback or the dismiss button), and
  the `useEffect` cleanup, which calls `clearTimeout` on the duration timer
  only.
* `apiAnalyzeContent` embeds `ApiService.analyzeContent` of
  `frontend/src/services/api.js`; `analyzeContent` embeds the `analyzeContent`
  handler of the `AnalyzePage` component; `clickAnalyze` / `ctrlEnterKey`
  embed the two submit entry paths of `InputBox.jsx`.
* `cardHandleFeedback` / `submitFeedbackFlow` embed the feedback path through
  `ResultCard.jsx` and the page-level `handleFeedback`.
-/

/-- Severity of a toast, the `type` argument of `addToast` in the source
(`info`, `success`, `warning`, `error`). -/
inductive ToastKind where
  | info
  | success
  | warning
  | error
deriving DecidableEq, BEq, Repr

/-- One stored toast, as built by `addToast`:
`const newToast = { id, message, type, duration }`.  The source id is
`Date.now() + Math.random()`; it is a parameter here.  `duration` is the
optional third argument of the show helpers (`undefined` when omitted). -/
structure ToastItem where
  id : Nat
  message : String
  type : ToastKind
  duration : Option Nat
deriving DecidableEq, Repr

/-- Embeds `addToast`: `setToasts(prev => [...prev, newToast])`. -/
def addToast (toasts : List ToastItem) (id : Nat) (message : String)
    (type : ToastKind) (duration : Option Nat) : List ToastItem :=
  toasts ++ [⟨id, message, type, duration⟩]

/-- Embeds `removeToast`:
`setToasts(prev => prev.filter(toast => toast.id !== id))`.  A total pure
function: it cannot raise. -/
def removeToast (toasts : List ToastItem) (id : Nat) : List ToastItem :=
  toasts.filter (fun t => t.id != id)

/-- Lifecycle phase of one toast, derived from the component state
`isVisible` / `isExiting`:  rendered and not exiting = `visible`, rendered
and exiting = `exiting`, not rendered (`return null`, `onClose` fired)
= `removed`. -/
inductive Phase where
  | visible
  | exiting
  | removed
deriving DecidableEq, Repr

/-- State of one mounted `Toast` component together with its timers.
`isVisible` / `isExiting` are the two `useState` cells; `durationPending`
records whether the outer `setTimeout(..., duration)` is scheduled and
uncancelled; `exitTimers` counts pending 300 ms exit-animation timeouts
(one is created by the duration callback and one by each dismiss click);
`mounted` records whether the component is still mounted; `closes` counts
invocations of the `onClose` continuation (which calls `removeToast` on the
owning queue). -/
structure TState where
  isVisible : Bool
  isExiting : Bool
  durationPending : Bool
  exitTimers : Nat
  mounted : Bool
  closes : Nat
deriving DecidableEq, Repr

/-- Initial state of a freshly mounted toast: visible, not exiting, the
duration timer scheduled by the `useEffect`, no exit timer yet. -/
def initToast : TState :=
  ⟨true, false, true, 0, true, 0⟩

/-- One event of the toast timer machine, read off the `Toast` component:

* `fireDuration`: the outer `setTimeout` elapses — `setIsExiting(true)` and a
  300 ms exit timeout is scheduled.
* `clickDismiss`: the dismiss button (rendered only while the toast is
  visible and mounted) — `setIsExiting(true)` and a 300 ms exit timeout is
  scheduled.
* `fireExit`: a 300 ms exit timeout elapses — `setIsVisible(false)` and
  `onClose?.()` runs.  The source never cancels these nested timeouts, so
  this event is not guarded by `mounted`.
* `unmount`: the `useEffect` cleanup runs — `clearTimeout(timer)` cancels
  the duration timer only. -/
inductive Step : TState → TState → Prop where
  | fireDuration (s s' : TState) (hp : s.durationPending = true)
      (he : s' = { s with isExiting := true, durationPending := false,
                          exitTimers := s.exitTimers + 1 }) : Step s s'
  | clickDismiss (s s' : TState) (hv : s.isVisible = true) (hm : s.mounted = true)
      (he : s' = { s with isExiting := true, exitTimers := s.exitTimers + 1 }) : Step s s'
  | fireExit (s s' : TState) (ht : 0 < s.exitTimers)
      (he : s' = { s with isVisible := false, exitTimers := s.exitTimers - 1,
                          closes := s.closes + 1 }) : Step s s'
  | unmount (s s' : TState) (hm : s.mounted = true)
      (he : s' = { s with mounted := false, durationPending := false }) : Step s s'

/-- Reflexive-transitive closure of `Step`: the states a toast can pass
through. -/
inductive Steps : TState → TState → Prop where
  | refl (s : TState) : Steps s s
  | tail {a b c : TState} : Steps a b → Step b c → Steps a c

/-- Phase read off a toast state. -/
def phase (s : TState) : Phase :=
  if s.isVisible = false then Phase.removed
  else if s.isExiting = true then Phase.exiting
  else Phase.visible

/-- Position of a phase along the lifecycle order
`visible → exiting → removed`. -/
def phaseIdx : Phase → Nat
  | Phase.visible => 0
  | Phase.exiting => 1
  | Phase.removed => 2

/-- A JavaScript character counts as trimmable whitespace. -/
def isJsSpace (c : Char) : Bool :=
  c == ' ' || c == '\t' || c == '\n' || c == '\r'

/-- Models `String.prototype.trim`: strips whitespace at both ends. -/
def jsTrim (s : String) : String :=
  String.mk (((s.data.dropWhile isJsSpace).reverse.dropWhile isJsSpace).reverse)

/-- The argument passed to `apiService.analyzeContent`.  `InputBox` passes the
raw textarea string (`onAnalyze(text)`); the spec-level scenarios call the
controller with an object `{text?, url?, includeExplanations?}`.  Property
access on a string value yields `undefined` for `text` and `url`, which the
`str` constructor reflects via `getText` / `getUrl`. -/
inductive JsOptions where
  | str (s : String)
  | obj (text : Option String) (url : Option String) (includeExplanations : Option Bool)
deriving DecidableEq, Repr

/-- JavaScript destructuring `const { text } = options`. -/
def getText : JsOptions → Option String
  | JsOptions.str _ => none
  | JsOptions.obj t _ _ => t

/-- JavaScript destructuring `const { url } = options`. -/
def getUrl : JsOptions → Option String
  | JsOptions.str _ => none
  | JsOptions.obj _ u _ => u

/-- JavaScript truthiness of a possibly-undefined string: `undefined` and the
empty string are falsy. -/
def truthyStr : Option String → Bool
  | none => false
  | some s => !(s == "")

/-- The analysis payload, as far as the page reads it.  The controller treats
it as an opaque value object; the fields here are the ones the components
access (`input_summary` feeds the feedback payload). -/
structure AnalysisResult where
  input_summary : Option String
  is_news : Option Bool
  validity_check : Option String
deriving DecidableEq, Repr

/-- The parsed JSON body of a successful `/analyze` response.  The page stores
`data.text_analysis || data.url_analysis || data`; `asResult` is the whole
body viewed as a result object for that last fallback. -/
structure AnalysisBody where
  text_analysis : Option AnalysisResult
  url_analysis : Option AnalysisResult
  asResult : AnalysisResult
deriving DecidableEq, Repr

/-- The selection `data.text_analysis || data.url_analysis || data`. -/
def pickResult (b : AnalysisBody) : AnalysisResult :=
  match b.text_analysis with
  | some r => r
  | none =>
    match b.url_analysis with
    | some r => r
    | none => b.asResult

/-- Behaviour of the `fetch` to the `/analyze` endpoint for one call:
either the promise rejects inside the `try` block (network failure, or a
malformed success body), or a response arrives with its `ok` flag, status,
status text, the `detail` field obtained by parsing the body as an error
(`undefined` when absent or unparsable), and the body parsed as a success
payload. -/
inductive FetchOutcome where
  | reject (msg : String)
  | response (ok : Bool) (status : Nat) (statusText : String)
      (detail : Option String) (body : AnalysisBody)
deriving Repr

/-- Message of the error thrown by `ApiService.analyzeContent` when neither
`text` nor `url` is truthy. -/
def requestErrorMsg : String := "Either text or URL must be provided"

/-- The fallback error text for a non-ok response without a usable `detail`:
the template `HTTP ${response.status}: ${response.statusText}`. -/
def httpGeneric (status : Nat) (statusText : String) : String :=
  "HTTP " ++ toString status ++ ": " ++ statusText

/-- Embeds `ApiService.analyzeContent` of `services/api.js`.  Returns the
settled result of the returned promise (`ok body` or `error message`)
together with the number of `fetch` calls issued to the endpoint.  The guard
`if (!text && !url) throw ...` runs before any `fetch`; for a non-ok response
the thrown message is `errorData.detail || generic` (JavaScript `||`, so an
empty `detail` also falls back). -/
def apiAnalyzeContent (options : JsOptions) (outcome : FetchOutcome) :
    Except String AnalysisBody × Nat :=
  if !truthyStr (getText options) && !truthyStr (getUrl options) then
    (Except.error requestErrorMsg, 0)
  else
    match outcome with
    | FetchOutcome.reject msg => (Except.error msg, 1)
    | FetchOutcome.response ok status statusText detail body =>
      if ok then (Except.ok body, 1)
      else
        (Except.error
          (match detail with
            | some d => if d == "" then httpGeneric status statusText else d
            | none => httpGeneric status statusText), 1)

/-- The `AnalyzePage` component state: the four `useState` cells `result`,
`loading`, `error`, `feedbackSubmitted`. -/
structure PageState where
  result : Option AnalysisResult
  loading : Bool
  error : Option String
  feedbackSubmitted : Bool
deriving DecidableEq, Repr

/-- One invocation of a toast helper (`showInfo` / `showSuccess` /
`showError`), i.e. a notification emission: message, severity, and the
optional duration argument. -/
structure ToastCall where
  message : String
  type : ToastKind
  duration : Option Nat
deriving DecidableEq, Repr

/-- Number of error-severity notifications among a list of emissions. -/
def errorCount (calls : List ToastCall) : Nat :=
  (calls.filter (fun c => c.type == ToastKind.error)).length

/-- The synchronous prefix of `analyzeContent` on the page, run before the
remote call is issued: `setLoading(true)`, `setResult(null)`,
`setError(null)`, `setFeedbackSubmitted(false)`. -/
def submitStart (s : PageState) : PageState :=
  { s with loading := true, result := none, error := none, feedbackSubmitted := false }

/-- The informational toast emitted right after the synchronous prefix. -/
def infoCall : ToastCall :=
  ⟨"Analyzing content... This may take a moment.", ToastKind.info, none⟩

/-- JavaScript `err.message || fallback` used in the catch block of the page. -/
def orDefaultMsg (msg : String) : String :=
  if msg == "" then "Analysis failed. Please try again." else msg

/-- Embeds the `analyzeContent` handler of the `AnalyzePage` component, the
controller's `submit`.  Returns the page state after the call settles, the
list of notification emissions in order, and the number of remote `fetch`
calls issued.  The success branch stores `data.text_analysis ||
data.url_analysis || data` and emits a success toast; the catch branch stores
`err.message || fallback` in `error` and emits an error toast with duration
6000. -/
def analyzeContent (s : PageState) (options : JsOptions) (outcome : FetchOutcome) :
    PageState × List ToastCall × Nat :=
  match apiAnalyzeContent options outcome with
  | (Except.ok body, n) =>
    ({ submitStart s with loading := false, result := some (pickResult body) },
      [infoCall, ⟨"Analysis completed successfully!", ToastKind.success, none⟩], n)
  | (Except.error msg, n) =>
    ({ submitStart s with loading := false, error := some (orDefaultMsg msg) },
      [infoCall, ⟨"Analysis failed: " ++ orDefaultMsg msg, ToastKind.error, some 6000⟩], n)

/-- Embeds `handleSubmit` of `InputBox.jsx`: when the trimmed textarea text is
non-empty it calls `onAnalyze(text)` with the raw string; otherwise nothing
happens.  The returned value is the argument passed to the controller, if
any. -/
def handleSubmit (text : String) : Option JsOptions :=
  if jsTrim text == "" then none else some (JsOptions.str text)

/-- The button entry path of `InputBox.jsx`: the analyze button carries
`disabled={loading || !text.trim()}`, so a click runs `handleSubmit` only
when enabled. -/
def clickAnalyze (loading : Bool) (text : String) : Option JsOptions :=
  if loading || jsTrim text == "" then none else handleSubmit text

/-- The keyboard entry path of `InputBox.jsx`: `onKeyPress` runs
`handleSubmit` on Ctrl+Enter with no check of `loading`. -/
def ctrlEnterKey (text : String) : Option JsOptions :=
  handleSubmit text

/-- The fixed feedback enumeration offered by the three buttons of
`ResultCard.jsx`. -/
inductive FeedbackChoice where
  | correct
  | partially_correct
  | incorrect
deriving DecidableEq, Repr

/-- The payload the page passes to `apiService.submitFeedback`:
`{text, analysis_id, user_feedback}`. -/
structure FeedbackPayload where
  text : Option String
  analysis_id : String
  user_feedback : FeedbackChoice
deriving DecidableEq, Repr

/-- Embeds `handleFeedback` of `ResultCard.jsx` combined with the relabelling
in the page-level `handleFeedback`: the object built is
`{feedback, analysis_id: Date.now().toString(), text: result.input_summary}`,
forwarded as `{text, analysis_id, user_feedback}`.  `now` is the value of
`Date.now()` at the click. -/
def cardHandleFeedback (result : AnalysisResult) (choice : FeedbackChoice)
    (now : Nat) : FeedbackPayload :=
  ⟨result.input_summary, toString now, choice⟩

/-- Embeds one feedback interaction end to end: the feedback buttons are
rendered only when `result` is truthy (the card returns `null` otherwise) and
`feedbackSubmitted` is false; a click builds the payload via
`cardHandleFeedback` and the page-level `handleFeedback` awaits
`apiService.submitFeedback` (`remoteOk` is whether that call succeeded).  On
success: `setFeedbackSubmitted(true)` plus a success toast.  On failure: an
error toast only (neither `error` nor `feedbackSubmitted` is touched).
Returns the new page state, the notification emissions, and the payload sent
to the remote feedback endpoint (`none` when no call was possible). -/
def submitFeedbackFlow (s : PageState) (choice : FeedbackChoice) (now : Nat)
    (remoteOk : Bool) : PageState × List ToastCall × Option FeedbackPayload :=
  match s.result, s.feedbackSubmitted with
  | some r, false =>
    let payload := cardHandleFeedback r choice now
    if remoteOk then
      ({ s with feedbackSubmitted := true },
        [⟨"Thank you for your feedback! It will help improve our system.",
          ToastKind.success, none⟩], some payload)
    else
      (s, [⟨"Failed to submit feedback. Please try again.", ToastKind.error, none⟩],
        some payload)
  | _, _ => (s, [], none)

theorem reach_exitTimers_isExiting (s : TState) (h : Steps initToast s) :
    0 < s.exitTimers → s.isExiting = true := by
  induction h with
  | refl => simp [initToast]
  | tail _ hbc ih =>
    cases hbc with
    | fireDuration hp he => subst he; simp
    | clickDismiss hv hm he => subst he; simp
    | fireExit ht he =>
      subst he; intro _; exact ih ht
    | unmount hm he =>
      subst he; intro hgt; exact ih hgt

/-- C9: `dismiss(id)` on an id absent from the collection (already removed or
never created) is a no-op — the collection is unchanged — and, being a total
pure function, the call never raises. -/
theorem removeToast_unknown_id_noop (toasts : List ToastItem) (id : Nat)
    (h : ∀ t ∈ toasts, t.id ≠ id) : removeToast toasts id = toasts := by
  unfold removeToast
  rw [List.filter_eq_self]
  intro t ht
  simpa using h t ht

/-- Witness for `removeToast_unknown_id_noop` at a concrete collection and an
unknown id. -/
theorem removeToast_unknown_id_noop_witness :
    removeToast [⟨1, "x", ToastKind.info, none⟩] 2 = [⟨1, "x", ToastKind.info, none⟩] :=
  removeToast_unknown_id_noop [⟨1, "x", ToastKind.info, none⟩] 2 (by decide)

/-- C10: removing by id deletes exactly the entries with that id: the result
is a sublist of the original (so the surviving entries keep all their fields
and their relative insertion order), and membership is exactly membership in
the original minus the matching id. -/
theorem removeToast_frame (toasts : List ToastItem) (id : Nat) :
    List.Sublist (removeToast toasts id) toasts ∧
      (∀ t, t ∈ removeToast toasts id ↔ t ∈ toasts ∧ t.id ≠ id) := by
  refine ⟨List.filter_sublist toasts, fun t => ?_⟩
  simp [removeToast, List.mem_filter]

/-- C6: along any reachable execution of one toast, each event moves the
phase forward along `visible → exiting → removed` or leaves it unchanged
(never reversed, so a toast never returns from `exiting` to `visible` nor
leaves `removed`), and no event jumps from `visible` directly to `removed` —
whether the transition is driven by the duration timeout or by a manual
dismiss. -/
theorem toast_phase_monotone (s s' : TState) (hs : Steps initToast s)
    (hstep : Step s s') :
    phaseIdx (phase s) ≤ phaseIdx (phase s') ∧
      ¬(phase s = Phase.visible ∧ phase s' = Phase.removed) := by
  cases hstep with
  | fireDuration hp he =>
    subst he
    cases hv : s.isVisible <;> cases hx : s.isExiting <;>
      simp [phase, phaseIdx, hv, hx]
  | clickDismiss hv hm he =>
    subst he
    cases hx : s.isExiting <;> simp [phase, phaseIdx, hv, hx]
  | fireExit ht he =>
    have hx : s.isExiting = true := reach_exitTimers_isExiting s hs ht
    subst he
    cases hv : s.isVisible <;> simp [phase, phaseIdx, hv, hx]
  | unmount hm he =>
    subst he
    cases hv : s.isVisible <;> cases hx : s.isExiting <;>
      simp [phase, phaseIdx, hv, hx]

/-- Witness for `toast_phase_monotone`: the duration timeout fired on a fresh
toast moves the phase from `visible` to `exiting`, not to `removed`. -/
theorem toast_phase_monotone_witness :
    phaseIdx (phase initToast) ≤ phaseIdx (phase (TState.mk true true false 1 true 0)) ∧
      ¬(phase initToast = Phase.visible ∧
        phase (TState.mk true true false 1 true 0) = Phase.removed) :=
  toast_phase_monotone initToast (TState.mk true true false 1 true 0)
    (Steps.refl initToast) (Step.fireDuration initToast _ rfl rfl)

/-- C5: the teardown cleanup does not cancel a pending 300 ms exit-animation
timer.  Concretely: from a fresh toast, let the duration timeout fire (which
schedules the exit timer) and then unmount — the resulting state still holds
one pending exit timer even though the component is unmounted, and that timer
can still fire, invoking the `onClose` continuation (a `removeToast` on the
torn-down queue) after teardown. -/
theorem unmount_leaves_exit_timer_live :
    Steps initToast (TState.mk true true false 1 false 0) ∧
      (TState.mk true true false 1 false 0).mounted = false ∧
      0 < (TState.mk true true false 1 false 0).exitTimers ∧
      Step (TState.mk true true false 1 false 0) (TState.mk false true false 0 false 1) ∧
      (TState.mk false true false 0 false 1).closes = 1 := by
  refine ⟨?_, rfl, by decide, ?_, rfl⟩
  · exact Steps.tail
      (Steps.tail (Steps.refl initToast) (Step.fireDuration initToast _ rfl rfl))
      (Step.unmount _ _ rfl rfl)
  · exact Step.fireExit _ _ (by decide) rfl

/-- C1 (code evidence): the in-flight guard exists only on the analyze
button; the Ctrl+Enter keyboard path bypasses it.  With the controller in
flight (`loading = true`, `result`/`error` cleared) and a non-blank textarea,
a button click is inert, but Ctrl+Enter invokes the controller anyway; that
run mutates `error` (to the request-error message) and `loading`, and emits
an error notification — no Busy signal exists anywhere in the code. -/
theorem busy_guard_bypassed_by_ctrl_enter :
    clickAnalyze true "hello" = none ∧
      ctrlEnterKey "hello" = some (JsOptions.str "hello") ∧
      (analyzeContent (PageState.mk none true none false) (JsOptions.str "hello")
          (FetchOutcome.reject "r")).1 =
        PageState.mk none false (some requestErrorMsg) false ∧
      errorCount (analyzeContent (PageState.mk none true none false)
          (JsOptions.str "hello") (FetchOutcome.reject "r")).2.1 = 1 := by
  refine ⟨by decide, by decide, ?_, by decide⟩
  simp [analyzeContent, apiAnalyzeContent, truthyStr, getText, getUrl,
    submitStart, orDefaultMsg, requestErrorMsg]

/-- C2: a submit whose request has neither `text` nor `url` truthy never
reaches the analysis endpoint (zero fetches) and settles in the failed state:
`loading` is false, `result` is absent, `error` holds the request-error
message, and the emissions are the informational toast followed by one error
toast carrying that message (duration 6000).  `feedbackSubmitted` is also
reset. -/
theorem submit_empty_request_rejected_locally (s : PageState) (options : JsOptions)
    (outcome : FetchOutcome) (ht : truthyStr (getText options) = false)
    (hu : truthyStr (getUrl options) = false) :
    (analyzeContent s options outcome).2.2 = 0 ∧
      (analyzeContent s options outcome).1 =
        PageState.mk none false (some requestErrorMsg) false ∧
      (analyzeContent s options outcome).2.1 =
        [infoCall,
          ⟨"Analysis failed: " ++ requestErrorMsg, ToastKind.error, some 6000⟩] := by
  have hmsg : orDefaultMsg requestErrorMsg = requestErrorMsg := by decide
  simp [analyzeContent, apiAnalyzeContent, ht, hu, submitStart, hmsg]

/-- Witness for `submit_empty_request_rejected_locally`: `submit({})` from the
idle state. -/
theorem submit_empty_request_rejected_locally_witness :
    (analyzeContent (PageState.mk none false none false)
        (JsOptions.obj none none none) (FetchOutcome.reject "x")).2.2 = 0 ∧
      (analyzeContent (PageState.mk none false none false)
          (JsOptions.obj none none none) (FetchOutcome.reject "x")).1 =
        PageState.mk none false (some requestErrorMsg) false ∧
      (analyzeContent (PageState.mk none false none false)
          (JsOptions.obj none none none) (FetchOutcome.reject "x")).2.1 =
        [infoCall,
          ⟨"Analysis failed: " ++ requestErrorMsg, ToastKind.error, some 6000⟩] :=
  submit_empty_request_rejected_locally (PageState.mk none false none false)
    (JsOptions.obj none none none) (FetchOutcome.reject "x") rfl rfl

/-- C3: every submit call that runs the controller resets `feedbackSubmitted`
to false — both in the synchronous prefix that accepts the call and in the
final state of every outcome — regardless of the previous state, in
particular when a prior analysis had `feedbackSubmitted = true`. -/
theorem submit_accept_resets_feedback (s : PageState) (options : JsOptions)
    (outcome : FetchOutcome) :
    (submitStart s).feedbackSubmitted = false ∧
      (analyzeContent s options outcome).1.feedbackSubmitted = false := by
  refine ⟨rfl, ?_⟩
  unfold analyzeContent
  rcases apiAnalyzeContent options outcome with ⟨res, n⟩
  cases res <;> simp [submitStart]

/-- C4: a submit whose request reaches the endpoint and gets a non-success
response with a non-empty `detail` string in the body settles failed:
`loading` false, `result` absent, `error` holding exactly that detail string
(hence containing it), and the emissions are the informational toast followed
by exactly one error toast whose message carries the stored error message. -/
theorem submit_service_error_reports_detail (s : PageState) (options : JsOptions)
    (status : Nat) (statusText : String) (d : String) (body : AnalysisBody)
    (hreq : truthyStr (getText options) = true ∨ truthyStr (getUrl options) = true)
    (hd : (d == "") = false) :
    (analyzeContent s options
        (FetchOutcome.response false status statusText (some d) body)).1 =
      PageState.mk none false (some d) false ∧
      (analyzeContent s options
          (FetchOutcome.response false status statusText (some d) body)).2.1 =
        [infoCall, ⟨"Analysis failed: " ++ d, ToastKind.error, some 6000⟩] ∧
      errorCount (analyzeContent s options
          (FetchOutcome.response false status statusText (some d) body)).2.1 = 1 := by
  have hmsg : orDefaultMsg d = d := by simp [orDefaultMsg, hd]
  have hinfo : (ToastKind.info == ToastKind.error) = false := by decide
  have herr : (ToastKind.error == ToastKind.error) = true := by decide
  rcases hreq with h | h <;>
    simp [analyzeContent, apiAnalyzeContent, h, hd, submitStart, hmsg, errorCount,
      infoCall, List.filter, hinfo, herr]

/-- Witness for `submit_service_error_reports_detail`: a text submission
answered with HTTP 500 and body detail "model unavailable". -/
theorem submit_service_error_reports_detail_witness :
    (analyzeContent (PageState.mk none false none false)
        (JsOptions.obj (some "Breaking: x") none (some true))
        (FetchOutcome.response false 500 "Internal Server Error"
          (some "model unavailable") (AnalysisBody.mk none none
            (AnalysisResult.mk none none none)))).1 =
      PageState.mk none false (some "model unavailable") false ∧
      (analyzeContent (PageState.mk none false none false)
          (JsOptions.obj (some "Breaking: x") none (some true))
          (FetchOutcome.response false 500 "Internal Server Error"
            (some "model unavailable") (AnalysisBody.mk none none
              (AnalysisResult.mk none none none)))).2.1 =
        [infoCall,
          ⟨"Analysis failed: " ++ "model unavailable", ToastKind.error, some 6000⟩] ∧
      errorCount (analyzeContent (PageState.mk none false none false)
          (JsOptions.obj (some "Breaking: x") none (some true))
          (FetchOutcome.response false 500 "Internal Server Error"
            (some "model unavailable") (AnalysisBody.mk none none
              (AnalysisResult.mk none none none)))).2.1 = 1 :=
  submit_service_error_reports_detail (PageState.mk none false none false)
    (JsOptions.obj (some "Breaking: x") none (some true)) 500
    "Internal Server Error" "model unavailable"
    (AnalysisBody.mk none none (AnalysisResult.mk none none none))
    (Or.inl (by decide)) (by decide)

/-- C7 (counterexample): the identifying data sent with a feedback submission
does not come exclusively from the stored analysis result.  With the same
stored result, the same userFeedback value, and the same remote behaviour,
two clicks at different clock readings send different payloads: the
`analysis_id` is `Date.now().toString()`, a value drawn from the clock, not
from the stored result. -/
theorem feedback_payload_uses_clock :
    (submitFeedbackFlow
        (PageState.mk (some (AnalysisResult.mk (some "headline") (some true) none))
          false none false) FeedbackChoice.correct 5 true).2.2 ≠
      (submitFeedbackFlow
        (PageState.mk (some (AnalysisResult.mk (some "headline") (some true) none))
          false none false) FeedbackChoice.correct 7 true).2.2 := by
  decide

/-- C7 (amended): for every submitFeedback interaction possible in the UI
(stored result present, feedback not yet submitted), the remote feedback
operation is invoked with the given userFeedback value (one of `correct`,
`partially_correct`, `incorrect`) and with `text` taken from the stored
result's `input_summary`; the `analysis_id`, however, is a freshly generated
timestamp string (`Date.now().toString()`), not data taken from the stored
result. -/
theorem feedback_payload_fields (s : PageState) (r : AnalysisResult)
    (choice : FeedbackChoice) (now : Nat) (remoteOk : Bool)
    (hr : s.result = some r) (hf : s.feedbackSubmitted = false) :
    (submitFeedbackFlow s choice now remoteOk).2.2 =
      some (FeedbackPayload.mk r.input_summary (toString now) choice) := by
  cases hok : remoteOk <;>
    simp [submitFeedbackFlow, hr, hf, cardHandleFeedback]

/-- Witness for `feedback_payload_fields` at a concrete succeeded state. -/
theorem feedback_payload_fields_witness :
    (submitFeedbackFlow
        (PageState.mk (some (AnalysisResult.mk (some "headline") (some true) none))
          false none false) FeedbackChoice.incorrect 42 true).2.2 =
      some (FeedbackPayload.mk (some "headline") (toString 42)
        FeedbackChoice.incorrect) :=
  feedback_payload_fields
    (PageState.mk (some (AnalysisResult.mk (some "headline") (some true) none))
      false none false)
    (AnalysisResult.mk (some "headline") (some true) none)
    FeedbackChoice.incorrect 42 true rfl rfl

/-- C8: from a state where feedback can be submitted (result stored, not yet
submitted), a successful feedback submission sets `feedbackSubmitted`, emits
exactly one success notification, and is terminal — any further feedback
interaction is a no-op that sends nothing and emits nothing; a failed
feedback submission leaves the page state completely unchanged (in
particular the persistent inline `error` is untouched and `feedbackSubmitted`
stays false, permitting retry), emits exactly one transient error
notification, and a retry can indeed reach the remote operation again. -/
theorem feedback_outcome_transitions (s : PageState) (r : AnalysisResult)
    (choice : FeedbackChoice) (now : Nat)
    (hr : s.result = some r) (hf : s.feedbackSubmitted = false) :
    ((submitFeedbackFlow s choice now true).1.feedbackSubmitted = true ∧
      (submitFeedbackFlow s choice now true).2.1 =
        [⟨"Thank you for your feedback! It will help improve our system.",
          ToastKind.success, none⟩] ∧
      (∀ choice2 now2 ok2,
        submitFeedbackFlow (submitFeedbackFlow s choice now true).1 choice2 now2 ok2 =
          ((submitFeedbackFlow s choice now true).1, [], none))) ∧
    ((submitFeedbackFlow s choice now false).1 = s ∧
      (submitFeedbackFlow s choice now false).2.1 =
        [⟨"Failed to submit feedback. Please try again.", ToastKind.error, none⟩] ∧
      ((submitFeedbackFlow (submitFeedbackFlow s choice now false).1
          choice now true).2.2).isSome = true) := by
  refine ⟨⟨?_, ?_, ?_⟩, ?_, ?_, ?_⟩ <;>
    simp [submitFeedbackFlow, hr, hf, cardHandleFeedback]

/-- Witness for `feedback_outcome_transitions` at a concrete succeeded
state. -/
theorem feedback_outcome_transitions_witness :
    ((submitFeedbackFlow
        (PageState.mk (some (AnalysisResult.mk (some "h") none none)) false none false)
        FeedbackChoice.correct 9 true).1.feedbackSubmitted = true ∧
      (submitFeedbackFlow
        (PageState.mk (some (AnalysisResult.mk (some "h") none none)) false none false)
        FeedbackChoice.correct 9 true).2.1 =
        [⟨"Thank you for your feedback! It will help improve our system.",
          ToastKind.success, none⟩] ∧
      (∀ choice2 now2 ok2,
        submitFeedbackFlow (submitFeedbackFlow
          (PageState.mk (some (AnalysisResult.mk (some "h") none none)) false none false)
          FeedbackChoice.correct 9 true).1 choice2 now2 ok2 =
          ((submitFeedbackFlow
            (PageState.mk (some (AnalysisResult.mk (some "h") none none)) false none false)
            FeedbackChoice.correct 9 true).1, [], none))) ∧
    ((submitFeedbackFlow
        (PageState.mk (some (AnalysisResult.mk (some "h") none none)) false none false)
        FeedbackChoice.correct 9 false).1 =
      PageState.mk (some (AnalysisResult.mk (some "h") none none)) false none false ∧
      (submitFeedbackFlow
        (PageState.mk (some (AnalysisResult.mk (some "h") none none)) false none false)
        FeedbackChoice.correct 9 false).2.1 =
        [⟨"Failed to submit feedback. Please try again.", ToastKind.error, none⟩] ∧
      ((submitFeedbackFlow (submitFeedbackFlow
          (PageState.mk (some (AnalysisResult.mk (some "h") none none)) false none false)
          FeedbackChoice.correct 9 false).1 FeedbackChoice.correct 9 true).2.2).isSome
        = true) :=
  feedback_outcome_transitions
    (PageState.mk (some (AnalysisResult.mk (some "h") none none)) false none false)
    (AnalysisResult.mk (some "h") none none) FeedbackChoice.correct 9 rfl rfl
